import Mathlib

/-!
Shallow embedding of the needle repository's attention engine
(`src/model.rs`, `src/db.rs`, `src/refresh.rs`, `src/tui.rs`) and proofs
about its scoring, novelty detection, cache persistence and interaction
state machine.

Conventions of the embedding:
* Rust `i64` values are modelled as `Int`; the saturating operations
  (`saturating_sub`, `saturating_mul`) clamp to the `i64` range explicitly.
* The SQLite table of `db.rs` is modelled as a list of rows (`Cache`);
  the primary-key lookup of the in-memory `HashMap` is `find_pr`.
* Calls into external crates that are out of engine scope (serde_json
  encode/decode of the CI-check blob) are taken as function parameters.
-/

namespace Needle

/-! ## model.rs -/

/-- `model.rs` `CiState`: aggregate CI rollup of a PR. -/
inductive CiState
  | Success
  | Failure
  | Running
  | None
deriving DecidableEq, Repr

/-- `model.rs` `CiState::as_str`. -/
def CiState.as_str : CiState → String
  | .Success => "success"
  | .Failure => "failure"
  | .Running => "running"
  | .None => "none"

/-- `model.rs` `ReviewState`: review state as it pertains to the viewer. -/
inductive ReviewState
  | Requested
  | Approved
  | None
deriving DecidableEq, Repr

/-- `model.rs` `ReviewState::as_str`. -/
def ReviewState.as_str : ReviewState → String
  | .Requested => "requested"
  | .Approved => "approved"
  | .None => "none"

/-- `model.rs` `CiCheckState`. -/
inductive CiCheckState
  | Success
  | Failure
  | Running
  | Neutral
  | None
deriving DecidableEq, Repr

/-- `model.rs` `CiCheckState::is_failure`. -/
def CiCheckState.is_failure (s : CiCheckState) : Bool :=
  s = CiCheckState.Failure

/-- `model.rs` `CiCheck`: one named check run. -/
structure CiCheck where
  name : String
  state : CiCheckState
  url : Option String
  started_at_unix : Option Int
deriving DecidableEq, Repr

/-- `model.rs` `MergeBlockers` (`u32` counts modelled as `Nat`). -/
structure MergeBlockers where
  has_conflicts : Bool
  required_approvals : Option Nat
  current_approvals : Nat
  required_checks : List String
  failing_required_checks : List String
  is_behind_base : Bool
deriving DecidableEq, Repr

/-- `model.rs` `MergeBlockers::is_clear`. -/
def MergeBlockers.is_clear (m : MergeBlockers) : Bool :=
  !m.has_conflicts
    && !m.is_behind_base
    && m.failing_required_checks.isEmpty
    && (match m.required_approvals with
        | some r => decide (r ≤ m.current_approvals)
        | none => true)

/-- `model.rs` `Pr`: one pull request (identity `pr_key = "{owner}/{repo}#{number}"`). -/
structure Pr where
  pr_key : String
  owner : String
  repo : String
  number : Int
  author : String
  title : String
  url : String
  updated_at_unix : Int
  last_commit_sha : Option String
  ci_state : CiState
  ci_checks : List CiCheck
  review_state : ReviewState
  is_draft : Bool
  mergeable : Option String
  merge_state_status : Option String
  is_viewer_author : Bool
  merge_blockers : Option MergeBlockers
deriving DecidableEq, Repr

/-! ## db.rs -/

/-- `db.rs` `DbPrRow`: the on-disk projection of a PR. -/
structure DbPrRow where
  pr_key : String
  owner : String
  repo : String
  number : Int
  title : String
  url : String
  author : Option String
  updated_at_unix : Option Int
  last_commit_sha : Option String
  last_ci_state : Option String
  last_review_state : Option String
  ci_checks_json : Option String
  is_draft : Option Int
  mergeable : Option String
  merge_state_status : Option String
  author_is_viewer : Option Int
  last_seen_at : Option Int
  last_opened_at : Option Int
deriving DecidableEq, Repr

/-- The `prs` SQLite table, modelled as its list of rows. -/
abbrev Cache := List DbPrRow

/-- Primary-key lookup in the table: the map returned by `db.rs`
`load_all_prs` is keyed by `pr_key`. -/
def find_pr (c : Cache) (k : String) : Option DbPrRow :=
  c.find? (fun r => decide (r.pr_key = k))

/-- `db.rs` `upsert_pr`: `INSERT ... ON CONFLICT(pr_key) DO UPDATE`.
The insert takes `last_seen_at` from the function argument (`?17`) and
`last_opened_at` from the row (`?18`); the conflict branch overwrites every
column from the new row except `last_opened_at`, which is absent from the
`DO UPDATE SET` list and therefore keeps the existing row's value. -/
def upsert_pr (c : Cache) (pr : DbPrRow) (last_seen_at : Int) : Cache :=
  if c.any (fun r => decide (r.pr_key = pr.pr_key)) then
    c.map (fun r =>
      if r.pr_key = pr.pr_key then
        { pr with
            last_seen_at := some last_seen_at
            last_opened_at := r.last_opened_at }
      else r)
  else
    c ++ [{ pr with last_seen_at := some last_seen_at }]

/-- `db.rs` `delete_prs_not_in`: with an empty keep-list the whole table is
cleared (`DELETE FROM prs`); otherwise `DELETE ... WHERE pr_key NOT IN (...)`
keeps exactly the rows whose key is listed. -/
def delete_prs_not_in (c : Cache) (keep_pr_keys : List String) : Cache :=
  if keep_pr_keys.isEmpty then []
  else c.filter (fun r => keep_pr_keys.contains r.pr_key)

/-! ## refresh.rs — scoring constants and integer helpers -/

def SCORE_REVIEW_REQUESTED : Int := 50
def SCORE_CI_FAILED_NEW : Int := 40
def SCORE_CI_RUNNING_LONG : Int := 20
def SCORE_APPROVED_UNMERGED_OLD : Int := 15
def SCORE_WAITING_ON_OTHERS_GREEN : Int := -20
def SCORE_CI_FAILED_UNCHANGED : Int := -30

def CATEGORY_NEEDS_YOU_MIN : Int := 40
def CATEGORY_NO_ACTION_MIN : Int := 0

def CI_RUNNING_LONG_SECS : Int := 10 * 60
def APPROVED_UNMERGED_OLD_SECS : Int := 24 * 3600

def I64_MIN : Int := -(2 ^ 63)
def I64_MAX : Int := 2 ^ 63 - 1

/-- Rust `i64::saturating_sub`, on the mathematical integers. -/
def satSub64 (a b : Int) : Int := max I64_MIN (min I64_MAX (a - b))

/-- Rust `i64::saturating_mul`, on the mathematical integers. -/
def satMul64 (a b : Int) : Int := max I64_MIN (min I64_MAX (a * b))

/-! ## refresh.rs — scope filters, parsing, scoring -/

/-- `refresh.rs` `ScopeFilters`. -/
structure ScopeFilters where
  orgs : List String
  include_repos : List String
  exclude_repos : List String
deriving DecidableEq, Repr

/-- `refresh.rs` `ScopeFilters::matches`. -/
def ScopeFilters.matches (s : ScopeFilters) (pr : Pr) : Bool :=
  if !s.orgs.isEmpty && !s.orgs.any (fun o => decide (o = pr.owner)) then
    false
  else
    let full := pr.owner ++ "/" ++ pr.repo
    if !s.include_repos.isEmpty && !s.include_repos.any (fun r => decide (r = full)) then
      false
    else if s.exclude_repos.any (fun r => decide (r = full)) then
      false
    else
      true

/-- `refresh.rs` `Category` as declared in this revision of the file
(`NeedsYou` / `Waiting` / `Stale`). -/
inductive Category
  | NeedsYou
  | Waiting
  | Stale
deriving DecidableEq, Repr

/-- `refresh.rs` `UiPr`: the engine's output wrapper around a `Pr`. -/
structure UiPr where
  pr : Pr
  score : Int
  category : Category
  display_status : String
  last_opened_at : Option Int
  is_new_review_request : Bool
  is_new_ci_failure : Bool
deriving DecidableEq, Repr

/-- `refresh.rs` `parse_ci_state`. -/
def parse_ci_state (s : Option String) : CiState :=
  match s with
  | some "success" => CiState.Success
  | some "failure" => CiState.Failure
  | some "running" => CiState.Running
  | _ => CiState.None

/-- `refresh.rs` `parse_review_state`. -/
def parse_review_state (s : Option String) : ReviewState :=
  match s with
  | some "requested" => ReviewState.Requested
  | some "approved" => ReviewState.Approved
  | _ => ReviewState.None

/-- `refresh.rs` `parse_ci_checks_json`. The `serde_json::from_str` call is
external to the engine and abstracted as `decode`; a `None` blob or a decode
failure degrades to the empty list, as in the source. -/
def parse_ci_checks_json (decode : String → Option (List CiCheck)) (s : Option String) :
    List CiCheck :=
  match s with
  | none => []
  | some s => (decode s).getD []

/-- `refresh.rs` `ci_checks_to_db_json`: `None` for an empty check list, the
`serde_json::to_string` result (abstracted as `encode`) otherwise. -/
def ci_checks_to_db_json (encode : List CiCheck → Option String) (checks : List CiCheck) :
    Option String :=
  if checks.isEmpty then none else encode checks

/-- `refresh.rs` `draft_to_db`. -/
def draft_to_db (v : Bool) : Int := if v then 1 else 0

/-- The `oldest_start` local of `refresh.rs` `running_for_secs`: the minimum
`started_at_unix` over the currently-running checks that carry one. -/
def oldest_running_start (pr : Pr) : Option Int :=
  ((pr.ci_checks.filter fun c => decide (c.state = CiCheckState.Running)).filterMap
    fun c => c.started_at_unix).min?

/-- `refresh.rs` `running_for_secs`: the oldest running check's start time
when one carries a timestamp, else the PR's `updated_at` as a proxy. -/
def running_for_secs (pr : Pr) (now : Int) : Int :=
  match oldest_running_start pr with
  | some start => satSub64 now start
  | none => satSub64 now pr.updated_at_unix

/-- `refresh.rs` `score_pr`: the additive urgency score. -/
def score_pr (pr : Pr) (old : Option DbPrRow) (now : Int) (is_new_ci_failure : Bool) : Int :=
  let score : Int := 0
  let score :=
    if pr.review_state = ReviewState.Requested then score + SCORE_REVIEW_REQUESTED else score
  let score :=
    if pr.ci_state = CiState.Failure then
      if is_new_ci_failure then score + SCORE_CI_FAILED_NEW
      else score + SCORE_CI_FAILED_UNCHANGED
    else score
  let score :=
    if pr.ci_state = CiState.Running then
      if running_for_secs pr now > CI_RUNNING_LONG_SECS then score + SCORE_CI_RUNNING_LONG
      else score
    else score
  let score :=
    if pr.review_state = ReviewState.Approved then
      if satSub64 now pr.updated_at_unix > APPROVED_UNMERGED_OLD_SECS then
        score + SCORE_APPROVED_UNMERGED_OLD
      else score
    else score
  let score :=
    if pr.review_state = ReviewState.None ∧ pr.ci_state = CiState.Success then
      score + SCORE_WAITING_ON_OTHERS_GREEN
    else score
  let _ := old
  score

/-- `refresh.rs` `category_for`. -/
def category_for (score : Int) : Category :=
  if score ≥ CATEGORY_NEEDS_YOU_MIN then Category.NeedsYou
  else if score ≥ CATEGORY_NO_ACTION_MIN then Category.Waiting
  else Category.Stale

/-- `refresh.rs` `human_age`. -/
def human_age (now : Int) (then_ : Int) : String :=
  let d := satSub64 now then_
  if d < 60 then "now"
  else if d < 3600 then s!"{d / 60}m ago"
  else if d < 86400 then s!"{d / 3600}h ago"
  else s!"{d / 86400}d ago"

/-- `refresh.rs` `status_text`. -/
def status_text (pr : Pr) (now : Int) (is_new_ci_failure : Bool)
    (is_new_review_request : Bool) : String :=
  if is_new_review_request && pr.review_state = ReviewState.Requested then
    "👀 review requested"
  else
    match pr.ci_state with
    | CiState.Failure =>
        if is_new_ci_failure then "❌ CI failed (new)" else "❌ CI failed"
    | CiState.Running =>
        let mins := running_for_secs pr now / 60
        s!"🟡 CI running ({mins}m)"
    | CiState.Success => s!"✅ green {human_age now pr.updated_at_unix}"
    | CiState.None => s!"⏺ none {human_age now pr.updated_at_unix}"

/-- `refresh.rs` `is_new_review_request`: the novelty detector for review
requests. -/
def is_new_review_request (pr : Pr) (old : Option DbPrRow) : Bool :=
  if pr.review_state = ReviewState.Requested then
    match old with
    | none => true
    | some o => decide (o.last_review_state ≠ some "requested")
  else false

/-- `refresh.rs` `is_new_ci_failure`: the novelty detector for CI
failures. -/
def is_new_ci_failure (pr : Pr) (old : Option DbPrRow) : Bool :=
  if pr.ci_state = CiState.Failure then
    match old with
    | none => true
    | some o =>
        decide (o.last_ci_state ≠ some "failure") ||
          decide (o.last_commit_sha ≠ pr.last_commit_sha)
  else false

/-- The ranking used by both `load_cached` and `refresh`:
`sort_by(score descending, then updated_at descending)`. `a` sorts no later
than `b` exactly when the Rust comparator does not return `Greater`. -/
def ui_order (a b : UiPr) : Prop :=
  b.score < a.score ∨ (b.score = a.score ∧ b.pr.updated_at_unix ≤ a.pr.updated_at_unix)

instance (a b : UiPr) : Decidable (ui_order a b) := by
  unfold ui_order
  exact inferInstance

/-- Rust `Vec::sort_by` is a stable sort; a stable insertion sort by the same
total order produces the same list. -/
def sort_ui (l : List UiPr) : List UiPr :=
  l.insertionSort ui_order

/-! ## refresh.rs — cached startup render -/

/-- The body of the `load_cached` row loop: `continue` on a row outside the
cutoff window or scope, otherwise the reconstructed `UiPr` with both novelty
flags false. This revision of `refresh.rs` builds the `Pr` without the later
`is_viewer_author` / `merge_blockers` fields; they default to
false / none here and feed nothing downstream. -/
def load_cached_row (decode : String → Option (List CiCheck)) (now cutoff_ts : Int)
    (scope : ScopeFilters) (row : DbPrRow) : Option UiPr :=
  let updated_at_unix := ((row.updated_at_unix).orElse fun _ => row.last_seen_at).getD now
  if updated_at_unix < cutoff_ts then none
  else
    let pr : Pr :=
      { pr_key := row.pr_key
        owner := row.owner
        repo := row.repo
        number := row.number
        author := row.author.getD "unknown"
        title := row.title
        url := row.url
        updated_at_unix := updated_at_unix
        last_commit_sha := row.last_commit_sha
        ci_state := parse_ci_state row.last_ci_state
        ci_checks := parse_ci_checks_json decode row.ci_checks_json
        review_state := parse_review_state row.last_review_state
        is_draft := row.is_draft.getD 0 ≠ 0
        mergeable := row.mergeable
        merge_state_status := row.merge_state_status
        is_viewer_author := false
        merge_blockers := none }
    if !scope.matches pr then none
    else
      let is_new_review := false
      let is_new_ci_failure := false
      let score := score_pr pr none now is_new_ci_failure
      let category := category_for score
      let display_status := status_text pr now is_new_ci_failure is_new_review
      some
        { pr := pr
          score := score
          category := category
          display_status := display_status
          last_opened_at := row.last_opened_at
          is_new_review_request := is_new_review
          is_new_ci_failure := is_new_ci_failure }

/-- `refresh.rs` `load_cached`: the fast startup render from SQLite, with no
network fetch. `now` stands for `now_unix()`. -/
def load_cached (cache : Cache) (now cutoff_days : Int) (scope : ScopeFilters)
    (decode : String → Option (List CiCheck)) : List UiPr :=
  let cutoff_ts := satSub64 now (satMul64 cutoff_days 86400)
  sort_ui (cache.filterMap (load_cached_row decode now cutoff_ts scope))

/-! ## demo.rs helpers used by the live refresh -/

/-- `demo.rs` `fnv1a_64` over the string's UTF-8 bytes, with `u64`
wrapping arithmetic modelled as arithmetic mod `2^64`. -/
def fnv1a_64 (s : String) : Nat :=
  s.toUTF8.toList.foldl
    (fun h b => ((h ^^^ b.toNat) * 0x100000001b3) % 2 ^ 64)
    0xcbf29ce484222325

/-- `demo.rs` `seeded_last_opened_at`. -/
def seeded_last_opened_at (pr_key : String) (now : Int) : Option Int :=
  match fnv1a_64 pr_key % 11 with
  | 0 => some (satSub64 now (23 * 60))
  | 1 => some (satSub64 now (3 * 3600))
  | 2 => some (satSub64 now (2 * 86400))
  | _ => none

/-! ## refresh.rs — the live refresh cycle -/

/-- The `DbPrRow` that `refresh` builds for one fetched PR before upserting
it (the `db_row` literal of the loop body). `old` is the prior cached row
looked up in the map loaded at the start of the cycle. This revision of
`refresh.rs` predates the `author_is_viewer` column, which the additive
migration backfills as NULL. -/
def db_row_of_pr (encode : List CiCheck → Option String) (pr : Pr) (old : Option DbPrRow)
    (now : Int) : DbPrRow :=
  { pr_key := pr.pr_key
    owner := pr.owner
    repo := pr.repo
    number := pr.number
    title := pr.title
    url := pr.url
    author := some pr.author
    updated_at_unix := some pr.updated_at_unix
    last_commit_sha := pr.last_commit_sha
    last_ci_state := some pr.ci_state.as_str
    last_review_state := some pr.review_state.as_str
    ci_checks_json := ci_checks_to_db_json encode pr.ci_checks
    is_draft := some (draft_to_db pr.is_draft)
    mergeable := pr.mergeable
    merge_state_status := pr.merge_state_status
    author_is_viewer := none
    last_seen_at := some now
    last_opened_at := (old.bind fun r => r.last_opened_at).orElse
      fun _ => seeded_last_opened_at pr.pr_key now }

/-- The `UiPr` that `refresh` pushes for one fetched PR. -/
def refresh_ui_pr (pr : Pr) (old : Option DbPrRow) (now : Int) : UiPr :=
  let new_review := is_new_review_request pr old
  let new_ci_failure := is_new_ci_failure pr old
  let last_opened_at := (old.bind fun r => r.last_opened_at).orElse
    fun _ => seeded_last_opened_at pr.pr_key now
  let score := score_pr pr old now new_ci_failure
  { pr := pr
    score := score
    category := category_for score
    display_status := status_text pr now new_ci_failure new_review
    last_opened_at := last_opened_at
    is_new_review_request := new_review
    is_new_ci_failure := new_ci_failure }

/-- `refresh.rs` `refresh`, from the point where the network fetch has
returned: `fetched` is the PR list produced by `fetch_attention_prs` (an
external collaborator), `cache` the table contents loaded into `existing`,
`now` the cycle's `now_unix()`. Returns the table contents after the
per-PR upserts and the final `delete_prs_not_in`, paired with the ranked
`UiPr` list the function returns. -/
def refresh_persist (cache : Cache) (fetched : List Pr) (now cutoff_days : Int)
    (scope : ScopeFilters) (encode : List CiCheck → Option String) :
    Cache × List UiPr :=
  let cutoff_ts := satSub64 now (satMul64 cutoff_days 86400)
  let prs := (fetched.filter fun p => decide (p.updated_at_unix ≥ cutoff_ts)).filter
    fun p => scope.matches p
  let keep_keys := prs.map fun p => p.pr_key
  let conn := prs.foldl
    (fun conn pr => upsert_pr conn (db_row_of_pr encode pr (find_pr cache pr.pr_key) now) now)
    cache
  let out := prs.map fun pr => refresh_ui_pr pr (find_pr cache pr.pr_key) now
  (delete_prs_not_in conn keep_keys, sort_ui out)

/-! ## tui.rs — interaction state machine -/

/-- `tui.rs` `ViewMode`. -/
inductive ViewMode
  | List
  | Details
deriving DecidableEq, Repr

/-- `tui.rs` `UiPrefs`. -/
structure UiPrefs where
  hide_pr_numbers : Bool
  hide_repo : Bool
  hide_author : Bool
deriving DecidableEq, Repr

/-- `tui.rs` `AppState`. The two `Instant`-valued timer fields
(`details_last_auto_refresh`, `last_refresh_started`) are wall-clock handles
that the transitions modelled below neither read nor decide on; they are
omitted from the embedding. -/
structure AppState where
  prs : List UiPr
  selected_idx : Nat
  mode : ViewMode
  details_pr_key : Option String
  refreshing : Bool
  shimmer_phase : Nat
  details_ci_selected : Nat
  ui : UiPrefs
  help_open : Bool
  filter_query : String
  filter_editing : Bool
  filter_edit : String
  filter_prev_query : String
  only_needs_you : Bool
  only_failing_ci : Bool
  only_review_requested : Bool
  update_notice : Option String
deriving DecidableEq, Repr

/-- Observable side effects of the key handlers: `open_in_browser` spawns the
external opener on a URL; a write of `last_opened_at` into the SQLite store
would be a `setOpenedAt`. -/
inductive Effect
  | openUrl (url : String)
  | setOpenedAt (pr_key : String) (ts : Int)
deriving DecidableEq, Repr

/-- Whether an effect is a cache write of `last_opened_at`. -/
def Effect.isCacheWrite : Effect → Bool
  | .openUrl _ => false
  | .setOpenedAt _ _ => true

/-- Whether an effect hands a URL to the external opener. -/
def Effect.isOpen : Effect → Bool
  | .openUrl _ => true
  | .setOpenedAt _ _ => false

/-- `tui.rs` `run_tui`, the `KeyCode::Enter` arm of the key-event match
(the `Open` transition). `visible` is `visible_for_events`, the indices into
`state.prs` currently shown. In `List` mode the selected PR's URL is opened;
in `Details` the selected CI check's URL if present, else the PR's URL.
Returns the state after the arm together with the effects it dispatched. -/
def handle_enter (st : AppState) (visible : List Nat) : AppState × List Effect :=
  match st.mode with
  | ViewMode.List =>
      match visible.get? st.selected_idx with
      | some pr_idx =>
          match st.prs.get? pr_idx with
          | some pr => (st, [Effect.openUrl pr.pr.url])
          | none => (st, [])
      | none => (st, [])
  | ViewMode.Details =>
      match st.details_pr_key.bind
        (fun k => st.prs.find? fun p => decide (p.pr.pr_key = k)) with
      | some pr =>
          let url := ((pr.pr.ci_checks.get? st.details_ci_selected).bind
            fun c => c.url).getD pr.pr.url
          (st, [Effect.openUrl url])
      | none => (st, [])

/-- The four outcomes of `refresh_rx.try_recv()` in the main loop:
`Ok(Ok(new_prs))`, `Ok(Err(e))`, `Err(TryRecvError::Empty)`,
`Err(TryRecvError::Disconnected)`. -/
inductive RecvOutcome
  | gotOk (new_prs : List UiPr)
  | gotErr (e : String)
  | chanEmpty
  | chanClosed
deriving Repr

/-- What one pass of the in-flight-refresh block decides: the next state,
whether the one-shot receiver is dropped (`refresh_rx = None`), and whether
the arm requests the loop to exit (none does — only the `q` key breaks the
loop). -/
structure LoopCtl where
  state : AppState
  rx_dropped : Bool
  quit : Bool
deriving DecidableEq, Repr

/-- `tui.rs` `run_tui`, the `rx.try_recv()` match inside `if state.refreshing`:
on success the whole PR list is replaced and `refreshing` cleared (the alert
side effects of that branch — terminal bell, OS notifications, the seen-repo
set — are calls into the external notifier, not state machine state); on a
failure result only `refreshing` is cleared and every other field, the PR
list included, is left as it was; an empty channel changes nothing; a
disconnected channel is treated like a failure. No arm exits the loop. -/
def on_refresh_recv (st : AppState) (m : RecvOutcome) : LoopCtl :=
  match m with
  | RecvOutcome.gotOk new_prs =>
      { state := { st with prs := new_prs, refreshing := false }
        rx_dropped := true
        quit := false }
  | RecvOutcome.gotErr _ =>
      { state := { st with refreshing := false }
        rx_dropped := true
        quit := false }
  | RecvOutcome.chanEmpty =>
      { state := st, rx_dropped := false, quit := false }
  | RecvOutcome.chanClosed =>
      { state := { st with refreshing := false }
        rx_dropped := true
        quit := false }

/-! ## The released `Category` with `ReadyToMerge`

`tui.rs` matches on `Category::ReadyToMerge` (section titles, alert diffing)
and `model.rs` carries `is_viewer_author` / `merge_blockers` for it, but the
`refresh.rs` revision in the snapshot predates that variant, so the enum and
its assignment rule are modelled from the spec. -/

/-- Modelled from the spec: the four-variant `Category`
(NeedsYou / ReadyToMerge / Waiting / Stale) of §3, whose `ReadyToMerge`
variant `tui.rs` consumes but whose defining `refresh.rs` revision is not in
the snapshot. -/
inductive CategoryFull
  | NeedsYou
  | ReadyToMerge
  | Waiting
  | Stale
deriving DecidableEq, Repr

/-- Modelled from the spec: §4.3 "ReadyToMerge is assigned … whenever the PR
is authored by the viewer, CI is green, and merge blockers (if known) are
clear" (matching the tui.rs help text "your PR, CI green, no blockers").
`MergeBlockers::is_clear` is the real `model.rs` code. -/
def is_ready_to_merge (pr : Pr) : Bool :=
  pr.is_viewer_author
    && decide (pr.ci_state = CiState.Success)
    && (match pr.merge_blockers with
        | some b => b.is_clear
        | none => true)

/-- Modelled from the spec: §4.3 category assignment with the `ReadyToMerge`
override — it "takes precedence over the score-based ones for display
purposes"; otherwise the score buckets of `category_for` apply. -/
def category_for_full (pr : Pr) (score : Int) : CategoryFull :=
  if is_ready_to_merge pr then CategoryFull.ReadyToMerge
  else
    match category_for score with
    | Category.NeedsYou => CategoryFull.NeedsYou
    | Category.Waiting => CategoryFull.Waiting
    | Category.Stale => CategoryFull.Stale

/-- Modelled from the spec: the score/category pair the engine attaches to a
scored PR under the four-variant categorization — the category override
"does not alter the numeric score" of `score_pr`. -/
def score_and_category (pr : Pr) (old : Option DbPrRow) (now : Int)
    (is_new_ci_failure : Bool) : Int × CategoryFull :=
  let s := score_pr pr old now is_new_ci_failure
  (s, category_for_full pr s)

/-! ## Claim-side formulations

These two definitions transcribe the spec's wording of the scoring rule
(§4.3), to be compared against `score_pr` as the source defines it. -/

/-- The running duration as the claim words it: now minus the oldest
currently-running check's `started_at` when any running check carries one,
otherwise now minus the PR's `updated_at`. -/
def claim_running_duration (pr : Pr) (now : Int) : Int :=
  match oldest_running_start pr with
  | some start => now - start
  | none => now - pr.updated_at_unix

/-- The score as the claim words it: the sum of five independent additive
terms (the CI-failure term has a new and an unchanged case, never both). -/
def claim_score (pr : Pr) (now : Int) (is_new_ci_failure : Bool) : Int :=
  (if pr.review_state = ReviewState.Requested then 50 else 0)
    + (if pr.ci_state = CiState.Failure ∧ is_new_ci_failure then 40 else 0)
    + (if pr.ci_state = CiState.Failure ∧ ¬is_new_ci_failure then -30 else 0)
    + (if pr.ci_state = CiState.Running ∧ claim_running_duration pr now > 10 * 60 then 20
      else 0)
    + (if pr.review_state = ReviewState.Approved ∧ now - pr.updated_at_unix > 24 * 3600 then 15
      else 0)
    + (if pr.review_state = ReviewState.None ∧ pr.ci_state = CiState.Success then -20 else 0)

/-! ## Concrete sample inputs used by witnesses and counterexamples -/

/-- A green, unreviewed PR (as a fetched `Pr`). -/
def pr_green : Pr :=
  { pr_key := "acme/web#7"
    owner := "acme"
    repo := "web"
    number := 7
    author := "alice"
    title := "Fix layout"
    url := "https://github.com/acme/web/pull/7"
    updated_at_unix := 1700000000
    last_commit_sha := some "abc1234"
    ci_state := CiState.Success
    ci_checks := []
    review_state := ReviewState.None
    is_draft := false
    mergeable := none
    merge_state_status := none
    is_viewer_author := false
    merge_blockers := none }

/-- A viewer-authored green PR whose only known blocker record is clear. -/
def pr_ready : Pr :=
  { pr_green with
      pr_key := "acme/web#8"
      number := 8
      is_viewer_author := true
      merge_blockers := some
        { has_conflicts := false
          required_approvals := some 1
          current_approvals := 2
          required_checks := ["ci"]
          failing_required_checks := []
          is_behind_base := false } }

/-- The `UiPr` the engine hands the TUI for `pr_green`. -/
def ui_green : UiPr :=
  { pr := pr_green
    score := -20
    category := Category.Stale
    display_status := "ok"
    last_opened_at := none
    is_new_review_request := false
    is_new_ci_failure := false }

/-- A TUI state showing the single PR `ui_green`, cursor on it, list mode. -/
def st_list : AppState :=
  { prs := [ui_green]
    selected_idx := 0
    mode := ViewMode.List
    details_pr_key := none
    refreshing := false
    shimmer_phase := 0
    details_ci_selected := 0
    ui := { hide_pr_numbers := false, hide_repo := false, hide_author := false }
    help_open := false
    filter_query := ""
    filter_editing := false
    filter_edit := ""
    filter_prev_query := ""
    only_needs_you := false
    only_failing_ci := false
    only_review_requested := false
    update_notice := none }

/-- A cached row for key `"k"` with `last_seen_at = 5`, `last_opened_at = 7`. -/
def row_k : DbPrRow :=
  { pr_key := "k"
    owner := "acme"
    repo := "web"
    number := 1
    title := "t"
    url := "u"
    author := none
    updated_at_unix := none
    last_commit_sha := none
    last_ci_state := none
    last_review_state := none
    ci_checks_json := none
    is_draft := none
    mergeable := none
    merge_state_status := none
    author_is_viewer := none
    last_seen_at := some 5
    last_opened_at := some 7 }

/-- A prior row for key `"k"` whose `last_opened_at` is `1`. -/
def row_k_old : DbPrRow := { row_k with last_seen_at := some 2, last_opened_at := some 1 }

/-- A replacement row for key `"k"` whose caller-supplied `last_opened_at`
is the newer value `99`. -/
def row_k_new : DbPrRow := { row_k with last_seen_at := some 9, last_opened_at := some 99 }

/-- A cached row that last observed a CI failure (for the cold-start
render). -/
def row_failed : DbPrRow :=
  { row_k with
      pr_key := "acme/web#9"
      number := 9
      author := some "alice"
      updated_at_unix := some 1700000000
      last_commit_sha := some "abc1234"
      last_ci_state := some "failure"
      last_review_state := some "none"
      last_seen_at := some 1700000000
      last_opened_at := none }

/-- The unrestricted scope (no org or repo filters). -/
def scope_all : ScopeFilters := { orgs := [], include_repos := [], exclude_repos := [] }

/-- The `UiPr` that the cold-start render produces from `row_failed` at
`now = 1700000000` with a 30-day cutoff. -/
def ui_failed : UiPr :=
  { pr :=
      { pr_key := "acme/web#9"
        owner := "acme"
        repo := "web"
        number := 9
        author := "alice"
        title := "t"
        url := "u"
        updated_at_unix := 1700000000
        last_commit_sha := some "abc1234"
        ci_state := CiState.Failure
        ci_checks := []
        review_state := ReviewState.None
        is_draft := false
        mergeable := none
        merge_state_status := none
        is_viewer_author := false
        merge_blockers := none }
    score := -30
    category := Category.Stale
    display_status := "❌ CI failed"
    last_opened_at := none
    is_new_review_request := false
    is_new_ci_failure := false }

/-! ## Helper lemmas -/

/-- A saturating `i64` difference compares against an in-range bound exactly
as the mathematical difference does. -/
theorem satSub64_gt_iff (a b c : Int) (h1 : I64_MIN ≤ c) (h2 : c < I64_MAX) :
    satSub64 a b > c ↔ a - b > c := by
  have hp : (2 : Int) ^ 63 = 9223372036854775808 := by norm_num
  unfold satSub64 I64_MIN I64_MAX at *
  rw [hp] at *
  rw [Int.max_def, Int.min_def]
  split_ifs <;> omega

/-- The strict running-duration threshold of the source agrees with the
claim's plain-subtraction formulation. -/
theorem running_threshold_iff (pr : Pr) (now : Int) :
    running_for_secs pr now > CI_RUNNING_LONG_SECS ↔
      claim_running_duration pr now > 10 * 60 := by
  unfold running_for_secs claim_running_duration CI_RUNNING_LONG_SECS
  cases oldest_running_start pr with
  | some s =>
      exact satSub64_gt_iff now s (10 * 60) (by norm_num [I64_MIN]) (by norm_num [I64_MAX])
  | none =>
      exact satSub64_gt_iff now pr.updated_at_unix (10 * 60) (by norm_num [I64_MIN])
        (by norm_num [I64_MAX])

/-- The strict approved-age threshold of the source agrees with the claim's
plain-subtraction formulation. -/
theorem approved_threshold_iff (pr : Pr) (now : Int) :
    satSub64 now pr.updated_at_unix > APPROVED_UNMERGED_OLD_SECS ↔
      now - pr.updated_at_unix > 24 * 3600 := by
  unfold APPROVED_UNMERGED_OLD_SECS
  exact satSub64_gt_iff now pr.updated_at_unix (24 * 3600) (by norm_num [I64_MIN])
    (by norm_num [I64_MAX])

/-! ## Claims -/

/-- C1: for every PR, every optional prior cached row, every
`is_new_ci_failure` flag and every time `now`, `score_pr` returns exactly the
sum of the five independent additive terms — +50 for a requested review,
+40 for a new CI failure else −30 for an unchanged one (never both), +20 for
CI running longer than 10 minutes (duration from the oldest running check's
`started_at` when present, else `now − updated_at`), +15 for approved but
untouched for more than 24 hours, and −20 for no requested review with green
CI. -/
theorem score_pr_is_sum_of_claim_terms (pr : Pr) (old : Option DbPrRow) (now : Int)
    (is_new : Bool) : score_pr pr old now is_new = claim_score pr now is_new := by
  have hrun := running_threshold_iff pr now
  have happ := approved_threshold_iff pr now
  cases hrs : pr.review_state <;> cases hcs : pr.ci_state <;> cases is_new <;>
      simp [score_pr, claim_score, SCORE_REVIEW_REQUESTED, SCORE_CI_FAILED_NEW,
        SCORE_CI_RUNNING_LONG, SCORE_APPROVED_UNMERGED_OLD, SCORE_WAITING_ON_OTHERS_GREEN,
        SCORE_CI_FAILED_UNCHANGED, hrs, hcs, hrun, happ] <;>
    split_ifs <;> omega

/-- C2: `is_new_ci_failure` is true exactly when the PR's CI state is
`Failure` and there is no prior cached row, or the prior row's recorded CI
state is not `"failure"`, or the head commit SHA differs from the prior
row's; in particular an unchanged prior failure with the same SHA does not
re-trigger, while a changed SHA does. -/
theorem is_new_ci_failure_iff (pr : Pr) (old : Option DbPrRow) :
    is_new_ci_failure pr old = true ↔
      pr.ci_state = CiState.Failure ∧
        (old = none ∨ ∃ o, old = some o ∧
          (o.last_ci_state ≠ some "failure" ∨ o.last_commit_sha ≠ pr.last_commit_sha)) := by
  unfold is_new_ci_failure
  cases old <;> split_ifs <;> simp_all

/-- C3: `is_new_review_request` is true exactly when the PR's review state is
`Requested` and there is no prior cached row or the prior row's recorded
review state is not `"requested"`; an already-requested PR does not
re-trigger. -/
theorem is_new_review_request_iff (pr : Pr) (old : Option DbPrRow) :
    is_new_review_request pr old = true ↔
      pr.review_state = ReviewState.Requested ∧
        (old = none ∨ ∃ o, old = some o ∧ o.last_review_state ≠ some "requested") := by
  unfold is_new_review_request
  cases old <;> split_ifs <;> simp_all

/-- C4: `category_for` is a total three-way partition of the integers —
`NeedsYou` exactly on scores ≥ 40, `Waiting` exactly on 0 ≤ score < 40,
`Stale` exactly on negative scores — so every scored PR gets exactly one
score-based category. -/
theorem category_for_partition (s : Int) :
    (category_for s = Category.NeedsYou ↔ 40 ≤ s) ∧
      (category_for s = Category.Waiting ↔ 0 ≤ s ∧ s < 40) ∧
      (category_for s = Category.Stale ↔ s < 0) := by
  unfold category_for CATEGORY_NEEDS_YOU_MIN CATEGORY_NO_ACTION_MIN
  split_ifs <;> refine ⟨⟨?_, ?_⟩, ⟨?_, ?_⟩, ⟨?_, ?_⟩⟩ <;> simp_all <;> omega

/-- C9: when an in-flight refresh completes with a failure result, the state
machine clears the `refreshing` flag and changes nothing else — the PR list
in particular survives untouched — and no arm of the result handler requests
the event loop to exit. -/
theorem failed_refresh_keeps_previous_list (st : AppState) (e : String) :
    (on_refresh_recv st (RecvOutcome.gotErr e)).state.prs = st.prs ∧
      (on_refresh_recv st (RecvOutcome.gotErr e)).state.refreshing = false ∧
      (on_refresh_recv st (RecvOutcome.gotErr e)).quit = false ∧
      (on_refresh_recv st (RecvOutcome.gotErr e)).state = { st with refreshing := false } :=
  ⟨rfl, rfl, rfl, rfl⟩

/-- C5: a PR authored by the viewer, with green CI and clear merge blockers
whenever they are known, is categorized `ReadyToMerge` for every score
input, while the numeric score stays exactly `score_pr`'s value. -/
theorem viewer_green_unblocked_is_ready_to_merge (pr : Pr) (old : Option DbPrRow)
    (now : Int) (newf : Bool) (h1 : pr.is_viewer_author = true)
    (h2 : pr.ci_state = CiState.Success)
    (h3 : ∀ b, pr.merge_blockers = some b → b.is_clear = true) :
    (score_and_category pr old now newf).2 = CategoryFull.ReadyToMerge ∧
      (score_and_category pr old now newf).1 = score_pr pr old now newf := by
  refine ⟨?_, rfl⟩
  have hready : is_ready_to_merge pr = true := by
    unfold is_ready_to_merge
    cases hb : pr.merge_blockers with
    | some b => simp [h1, h2, h3 b hb]
    | none => simp [h1, h2]
  simp [score_and_category, category_for_full, hready]

/-- Witness for C5 at the concrete PR `pr_ready`. -/
theorem viewer_green_unblocked_is_ready_to_merge_witness :
    (score_and_category pr_ready none 1700000000 false).2 = CategoryFull.ReadyToMerge ∧
      (score_and_category pr_ready none 1700000000 false).1 =
        score_pr pr_ready none 1700000000 false :=
  viewer_green_unblocked_is_ready_to_merge pr_ready none 1700000000 false rfl rfl
    (by intro b hb; cases hb; decide)

/-- C8 counterexample: on the concrete state `st_list` (one PR, list mode,
cursor on it) the Enter/Open transition hands exactly the PR's URL to the
external opener, dispatches no cache write of `last_opened_at`, and returns
the state unchanged — it neither stamps `last_opened_at` nor writes through
to the cache store. -/
theorem open_stamps_nothing_cex :
    (handle_enter st_list [0]).2 =
        [Effect.openUrl "https://github.com/acme/web/pull/7"] ∧
      (handle_enter st_list [0]).2.any Effect.isOpen = true ∧
      (handle_enter st_list [0]).2.any Effect.isCacheWrite = false ∧
      (handle_enter st_list [0]).1 = st_list :=
  ⟨rfl, rfl, rfl, rfl⟩

/-- C8 amended: the Open transition resolves the currently selected PR (or,
in Details, the selected CI check falling back to the PR) to a URL and hands
it to the external opener, and does nothing else: the state — every
`last_opened_at` included — is returned unchanged and no cache write is
dispatched (`run_tui`'s store connection goes unused). -/
theorem open_resolves_url_and_writes_nothing :
    ∀ (st : AppState) (visible : List Nat),
      (handle_enter st visible).1 = st ∧
        (handle_enter st visible).2.any Effect.isCacheWrite = false ∧
        (∀ idx u, st.mode = ViewMode.List → visible.get? st.selected_idx = some idx →
          st.prs.get? idx = some u →
          (handle_enter st visible).2 = [Effect.openUrl u.pr.url]) ∧
        (∀ u, st.mode = ViewMode.Details →
          (st.details_pr_key.bind
            (fun k => st.prs.find? fun p => decide (p.pr.pr_key = k))) = some u →
          (handle_enter st visible).2 =
            [Effect.openUrl (((u.pr.ci_checks.get? st.details_ci_selected).bind
              fun c => c.url).getD u.pr.url)]) := by
  intro st visible
  have hsplit : (handle_enter st visible).1 = st ∧
      ((handle_enter st visible).2 = [] ∨
        ∃ url, (handle_enter st visible).2 = [Effect.openUrl url]) := by
    unfold handle_enter
    cases st.mode
    · cases h1 : visible.get? st.selected_idx with
      | none => simp
      | some i =>
          cases h2 : st.prs.get? i with
          | none => rw [List.get?_eq_getElem?] at h2; simp [h2]
          | some u => rw [List.get?_eq_getElem?] at h2; simp [h2]
    · cases hd : (st.details_pr_key.bind
        fun k => st.prs.find? fun p => decide (p.pr.pr_key = k)) with
      | none => simp
      | some u => simp
  refine ⟨hsplit.1, ?_, ?_, ?_⟩
  · rcases hsplit.2 with h | ⟨url, h⟩ <;> rw [h] <;> rfl
  · intro idx u hm h1 h2
    rw [List.get?_eq_getElem?] at h1 h2
    simp [handle_enter, hm, h1, h2]
  · intro u hm hd
    simp [handle_enter, hm, hd]

/-! ## Cache-store lemmas -/

/-- Lookup skips a head row with a different key. -/
theorem find_pr_cons_ne (r : DbPrRow) (c : Cache) (k : String) (hk : r.pr_key ≠ k) :
    find_pr (r :: c) k = find_pr c k := by
  unfold find_pr
  exact List.find?_cons_of_neg _ (by simpa using hk)

/-- Lookup returns a head row with the matching key. -/
theorem find_pr_cons_eq (r : DbPrRow) (c : Cache) (k : String) (hk : r.pr_key = k) :
    find_pr (r :: c) k = some r := by
  unfold find_pr
  exact List.find?_cons_of_pos _ (by simpa using hk)

/-- Upserting under a distinct head key steps past the head. -/
theorem upsert_cons_ne (r : DbPrRow) (rs : Cache) (pr : DbPrRow) (t : Int)
    (hk : r.pr_key ≠ pr.pr_key) :
    upsert_pr (r :: rs) pr t = r :: upsert_pr rs pr t := by
  unfold upsert_pr
  by_cases ha : rs.any (fun x => decide (x.pr_key = pr.pr_key)) <;>
    simp [List.any_cons, hk, ha]

/-- C6 (amended): `upsert` followed by `load_all` lookup returns a row equal
to the input in every field except `last_seen_at`, which is set to the
supplied observation time, and `last_opened_at`, which on a key conflict is
always preserved from the existing row — the caller-supplied value is
ignored — and on a fresh insert is taken from the input row. -/
theorem upsert_then_lookup (c : Cache) (pr : DbPrRow) (t : Int) :
    find_pr (upsert_pr c pr t) pr.pr_key =
      some { pr with
        last_seen_at := some t
        last_opened_at :=
          match find_pr c pr.pr_key with
          | some old => old.last_opened_at
          | none => pr.last_opened_at } := by
  induction c with
  | nil => simp [upsert_pr, find_pr, List.find?]
  | cons r rs ih =>
      by_cases hk : r.pr_key = pr.pr_key
      · have hany : ((r :: rs).any fun x => decide (x.pr_key = pr.pr_key)) = true := by
          simp [List.any_cons, hk]
        have hmap : upsert_pr (r :: rs) pr t =
            { pr with last_seen_at := some t, last_opened_at := r.last_opened_at } ::
              (rs.map fun x =>
                if x.pr_key = pr.pr_key then
                  { pr with last_seen_at := some t, last_opened_at := x.last_opened_at }
                else x) := by
          unfold upsert_pr
          simp [hany, hk]
        rw [hmap, find_pr_cons_eq _ _ _ rfl, find_pr_cons_eq _ _ _ hk]
      · rw [upsert_cons_ne _ _ _ _ hk, find_pr_cons_ne _ _ _ hk, find_pr_cons_ne _ _ _ hk]
        exact ih

/-- C6 counterexample: upserting the concrete row `row_k`
(`last_seen_at = 5`) at observation time 10 yields a loaded row whose
`last_seen_at` is 10, differing from the input in a field other than
`last_opened_at`; and upserting `row_k_new` (caller-supplied
`last_opened_at = 99`) over the existing `row_k_old` keeps the prior
value 1, so a newer caller-supplied value does not overwrite it. -/
theorem upsert_round_trip_cex :
    (find_pr (upsert_pr [] row_k 10) "k").map DbPrRow.last_seen_at ≠
        some row_k.last_seen_at ∧
      (find_pr (upsert_pr [] row_k 10) "k").map DbPrRow.last_seen_at = some (some 10) ∧
      (find_pr (upsert_pr [row_k_old] row_k_new 10) "k").map DbPrRow.last_opened_at =
        some (some 1) ∧
      row_k_new.last_opened_at = some 99 := by
  refine ⟨?_, rfl, rfl, rfl⟩
  decide

/-! ## Refresh-persistence lemmas -/

/-- An upsert's effect on the key set: the upserted row's key joins the
existing keys. -/
theorem mem_keys_upsert (c : Cache) (pr : DbPrRow) (t : Int) (k : String) :
    k ∈ (upsert_pr c pr t).map DbPrRow.pr_key ↔
      k ∈ c.map DbPrRow.pr_key ∨ k = pr.pr_key := by
  unfold upsert_pr
  by_cases ha : c.any (fun x => decide (x.pr_key = pr.pr_key))
  · have hin : pr.pr_key ∈ c.map DbPrRow.pr_key := by
      rcases List.any_eq_true.mp ha with ⟨x, hx, hpx⟩
      exact List.mem_map.mpr ⟨x, hx, by simpa using hpx⟩
    have hmap : ((c.map fun r =>
        if r.pr_key = pr.pr_key then
          { pr with last_seen_at := some t, last_opened_at := r.last_opened_at }
        else r).map DbPrRow.pr_key) = c.map DbPrRow.pr_key := by
      rw [List.map_map]
      refine List.map_congr_left fun r _ => ?_
      by_cases h : r.pr_key = pr.pr_key <;> simp [h]
    simp only [ha, if_true]
    rw [hmap]
    constructor
    · exact Or.inl
    · rintro (h | rfl)
      · exact h
      · exact hin
  · rw [if_neg ha, List.map_append, List.mem_append]
    simp

/-- The fold of per-PR upserts in `refresh` adds exactly the fetched keys to
the cache's key set. -/
theorem mem_keys_foldl_upsert (enc : List CiCheck → Option String) (cache : Cache)
    (now : Int) (k : String) :
    ∀ (prs : List Pr) (c : Cache),
      (k ∈ (prs.foldl
        (fun conn pr =>
          upsert_pr conn (db_row_of_pr enc pr (find_pr cache pr.pr_key) now) now)
        c).map DbPrRow.pr_key) ↔
        k ∈ c.map DbPrRow.pr_key ∨ k ∈ prs.map Pr.pr_key := by
  intro prs
  induction prs with
  | nil => simp
  | cons p ps ih =>
      intro c
      rw [List.foldl_cons]
      rw [ih]
      rw [mem_keys_upsert]
      have hkey : (db_row_of_pr enc p (find_pr cache p.pr_key) now).pr_key = p.pr_key := rfl
      rw [hkey]
      simp only [List.map_cons, List.mem_cons]
      tauto

/-- Pruning's effect on the key set: a key survives exactly when it was
present and is kept. -/
theorem mem_keys_delete (c : Cache) (keep : List String) (k : String) :
    k ∈ (delete_prs_not_in c keep).map DbPrRow.pr_key ↔
      k ∈ c.map DbPrRow.pr_key ∧ k ∈ keep := by
  unfold delete_prs_not_in
  by_cases hk : keep.isEmpty
  · rw [List.isEmpty_iff.mp hk]
    simp
  · simp only [hk, if_false, Bool.false_eq_true]
    constructor
    · rintro h
      rcases List.mem_map.mp h with ⟨r, hr, rfl⟩
      rcases List.mem_filter.mp hr with ⟨hrc, hpr⟩
      exact ⟨List.mem_map.mpr ⟨r, hrc, rfl⟩, by simpa using hpr⟩
    · rintro ⟨h1, h2⟩
      rcases List.mem_map.mp h1 with ⟨r, hr, rfl⟩
      exact List.mem_map.mpr ⟨r, List.mem_filter.mpr ⟨hr, by simpa using h2⟩, rfl⟩

/-- C7: after a completed refresh cycle the cache contains exactly the set
of `pr_key`s returned by that cycle — every returned PR was upserted, every
other row was deleted — and a cycle whose attention set is empty clears the
cache entirely. -/
theorem refresh_cache_is_exactly_returned_set :
    (∀ (cache : Cache) (fetched : List Pr) (now cutoff_days : Int) (scope : ScopeFilters)
      (enc : List CiCheck → Option String) (key : String),
      (key ∈ (refresh_persist cache fetched now cutoff_days scope enc).1.map
        DbPrRow.pr_key) ↔
        key ∈ (refresh_persist cache fetched now cutoff_days scope enc).2.map
          fun u => u.pr.pr_key) ∧
    (∀ (cache : Cache) (now cutoff_days : Int) (scope : ScopeFilters)
      (enc : List CiCheck → Option String),
      (refresh_persist cache [] now cutoff_days scope enc).1 = []) := by
  constructor
  · intro cache fetched now cutoff_days scope enc key
    unfold refresh_persist
    simp only []
    rw [mem_keys_delete]
    rw [mem_keys_foldl_upsert]
    rw [sort_ui]
    rw [List.Perm.mem_iff ((List.perm_insertionSort ui_order _).map _)]
    rw [List.map_map]
    have hkeys : ((fun u => u.pr.pr_key) ∘
        fun pr => refresh_ui_pr pr (find_pr cache pr.pr_key) now) = Pr.pr_key := rfl
    rw [hkeys]
    tauto
  · intro cache now cutoff_days scope enc
    rfl

/-- With no prior row and a non-new failure flag, a failing PR scores the
requested-review term, the −30 unchanged-failure term and the approved-age
term; the running and waiting-on-others terms cannot fire. -/
theorem score_pr_none_failure (pr : Pr) (now : Int) (h : pr.ci_state = CiState.Failure) :
    score_pr pr none now false =
      (if pr.review_state = ReviewState.Requested then 50 else 0) + (-30)
        + (if pr.review_state = ReviewState.Approved ∧ now - pr.updated_at_unix > 24 * 3600
          then 15 else 0) := by
  have happ := approved_threshold_iff pr now
  cases hrs : pr.review_state <;>
      simp [score_pr, SCORE_REVIEW_REQUESTED, SCORE_CI_FAILED_NEW, SCORE_CI_RUNNING_LONG,
        SCORE_APPROVED_UNMERGED_OLD, SCORE_WAITING_ON_OTHERS_GREEN, SCORE_CI_FAILED_UNCHANGED,
        h, hrs, happ] <;>
    split_ifs <;> omega

/-- C10: every `UiPr` that the cold-start render `load_cached` produces has
both novelty flags false, and consequently a cached PR whose CI state is
`Failure` is scored with the −30 unchanged-failure term on startup — its
score is the requested term plus −30 plus the approved-age term, never the
+40 new-failure term. -/
theorem load_cached_never_marks_novelty (cache : Cache) (now cutoff_days : Int)
    (scope : ScopeFilters) (decode : String → Option (List CiCheck)) (u : UiPr)
    (hu : u ∈ load_cached cache now cutoff_days scope decode) :
    u.is_new_review_request = false ∧ u.is_new_ci_failure = false ∧
      (u.pr.ci_state = CiState.Failure →
        u.score = (if u.pr.review_state = ReviewState.Requested then 50 else 0) + (-30)
          + (if u.pr.review_state = ReviewState.Approved ∧
              now - u.pr.updated_at_unix > 24 * 3600 then 15 else 0)) := by
  simp only [load_cached, sort_ui] at hu
  replace hu := (List.perm_insertionSort ui_order _).mem_iff.mp hu
  rcases List.mem_filterMap.mp hu with ⟨row, -, hrow⟩
  simp only [load_cached_row] at hrow
  split at hrow
  · simp at hrow
  · split at hrow
    · simp at hrow
    · have h := Option.some.inj hrow
      subst h
      refine ⟨rfl, rfl, fun hf => ?_⟩
      exact score_pr_none_failure _ now hf

set_option maxRecDepth 8000 in
/-- Witness for C10: the concrete one-row cache `[row_failed]` cold-loads to
a list containing `ui_failed`, whose flags are false and whose score carries
the −30 term. -/
theorem load_cached_never_marks_novelty_witness :
    ui_failed.is_new_review_request = false ∧ ui_failed.is_new_ci_failure = false ∧
      (ui_failed.pr.ci_state = CiState.Failure →
        ui_failed.score =
          (if ui_failed.pr.review_state = ReviewState.Requested then 50 else 0) + (-30)
            + (if ui_failed.pr.review_state = ReviewState.Approved ∧
                (1700000000 : Int) - ui_failed.pr.updated_at_unix > 24 * 3600 then 15
              else 0)) :=
  load_cached_never_marks_novelty [row_failed] 1700000000 30 scope_all (fun _ => none)
    ui_failed (by decide)

end Needle
